import Mathlib

/-!
Shallow embedding of the headless-wheel-builder's security validation,
Docker image selection, Docker command construction, wheel-filename parsing,
safe cleanup and atomic file writing, translated from the Python sources
`security_validation.py`, `isolation/docker_images.py`,
`isolation/docker_config.py`, `isolation/docker_commands.py` and
`core/builder_metadata.py`.

String processing is modelled by executable structural recursion over
`List Char` (`pyStrip`, `pySplit`, `pyReplace`, `pyLower`, `pyStartsWith`,
`pyEndsWith`, `pySorted` mirror the Python `str`/`sorted` primitives used by
the sources), so every definition evaluates on concrete inputs by kernel
reduction.

Filesystem- and subprocess-touching behaviour is made explicit:
`select_image` takes the outcome of the pull-if-absent subprocess step as an
oracle and records, in a trace, which images were passed to
`ensure_image_available`; `safe_cleanup_wheels` takes the directory state
(existence, kind, entries) and a deletion-failure oracle and returns the
resulting directory state; the atomic writer acts on an association list of
file names to contents.
-/

namespace HWB

/-- Decidable equality for `Except`, for evaluating model outcomes. -/
instance {ε α : Type} [DecidableEq ε] [DecidableEq α] :
    DecidableEq (Except ε α) := fun x y =>
  match x, y with
  | .ok a, .ok b =>
    if h : a = b then isTrue (by rw [h])
    else isFalse (by intro hh; cases hh; exact h rfl)
  | .error a, .error b =>
    if h : a = b then isTrue (by rw [h])
    else isFalse (by intro hh; cases hh; exact h rfl)
  | .ok _, .error _ => isFalse (by intro hh; cases hh)
  | .error _, .ok _ => isFalse (by intro hh; cases hh)

/-- Python `str.strip()` on the left end: drop leading whitespace. -/
def trimLeftChars : List Char → List Char
  | [] => []
  | c :: cs => if c.isWhitespace then trimLeftChars cs else c :: cs

/-- Python `str.strip()`: drop leading and trailing whitespace. -/
def pyStrip (s : String) : String :=
  String.mk ((trimLeftChars (trimLeftChars s.data).reverse).reverse)

/-- Python's single-separator `str.split(sep)` on character lists:
`splitOnSep sep cs` is the list of chunks of `cs` between occurrences of
`sep` (never empty; `[[]]` for the empty input, like Python's `[""]`). -/
def splitOnSep (sep : Char) : List Char → List (List Char)
  | [] => [[]]
  | c :: cs =>
    match splitOnSep sep cs with
    | [] => [[]]
    | r :: rs => if c = sep then [] :: r :: rs else (c :: r) :: rs

/-- Python `str.split(sep)` for a single-character separator. -/
def pySplit (s : String) (sep : Char) : List String :=
  (splitOnSep sep s.data).map String.mk

/-- Helper for `pyReplace`: strip an expected prefix, or fail. -/
def stripPrefixChars : List Char → List Char → Option (List Char)
  | [], s => some s
  | _ :: _, [] => none
  | p :: ps, c :: cs => if p = c then stripPrefixChars ps cs else none

/-- Fuel-indexed engine of Python `str.replace`: scan left to right and
replace each non-overlapping occurrence of `pat` by `rep`. The fuel is the
input length, and each step consumes at least one character, so the `0`
case is never reached from `pyReplace`. -/
def replaceAux (pat rep : List Char) : Nat → List Char → List Char
  | 0, s => s
  | _ + 1, [] => []
  | fuel + 1, c :: cs =>
    match pat with
    | [] => c :: replaceAux pat rep fuel cs
    | p :: ps =>
      if p = c then
        match stripPrefixChars ps cs with
        | some rest => rep ++ replaceAux pat rep fuel rest
        | none => c :: replaceAux pat rep fuel cs
      else c :: replaceAux pat rep fuel cs

/-- Python `str.replace(pat, rep)`: replaces every occurrence. -/
def pyReplace (s pat rep : String) : String :=
  String.mk (replaceAux pat.data rep.data s.data.length s.data)

/-- Python `str.lower()` (the sources lower-case ASCII paths). -/
def pyLower (s : String) : String := String.mk (s.data.map Char.toLower)

/-- Python `str.startswith(pre)`. -/
def pyStartsWith (s pre : String) : Bool := pre.data.isPrefixOf s.data

/-- Python `str.endswith(suf)`. -/
def pyEndsWith (s suf : String) : Bool := suf.data.isSuffixOf s.data

/-- Lexicographic (code-point) strict comparison, Python's string order. -/
def lexLt : List Char → List Char → Bool
  | [], [] => false
  | [], _ :: _ => true
  | _ :: _, [] => false
  | a :: as, b :: bs => if a < b then true else if b < a then false else lexLt as bs

/-- Insertion into a lexicographically sorted list of strings. -/
def insertSorted (x : String) : List String → List String
  | [] => [x]
  | y :: ys => if lexLt y.data x.data then y :: insertSorted x ys else x :: y :: ys

/-- Python's `sorted` on a list of strings (insertion sort by code-point
order). -/
def pySorted (l : List String) : List String := l.foldr insertSorted []

/-- Supported Python versions in manylinux images
(`security_validation.SUPPORTED_PYTHON_VERSIONS`; a Python `set` literal,
modelled as the list of its elements). -/
def SUPPORTED_PYTHON_VERSIONS : List String :=
  ["3.9", "3.10", "3.11", "3.12", "3.13"]

/-- The string `", ".join(sorted(SUPPORTED_PYTHON_VERSIONS))` used in the
validation error messages. -/
def supportedVersionsStr : String :=
  String.intercalate ", " (pySorted SUPPORTED_PYTHON_VERSIONS)

/-- The `major.minor` normalisation computed inline by
`validate_python_version` (its `short_version` local): the first two
dot-separated components when there are at least two, the input itself
otherwise. -/
def shortVersion (version : String) : String :=
  let parts := pySplit version '.'
  if 2 ≤ parts.length then parts.getD 0 "" ++ "." ++ parts.getD 1 ""
  else version

/-- `security_validation.validate_python_version`: rejects empty/blank input,
normalises to `major.minor`, and rejects versions outside the supported set,
listing the supported versions in each error. -/
def validate_python_version (version : String) : Except String Unit :=
  if pyStrip version = "" then
    .error ("Python version cannot be empty\nSupported versions: " ++
      supportedVersionsStr)
  else if SUPPORTED_PYTHON_VERSIONS.contains (shortVersion version) then
    .ok ()
  else
    .error ("Unsupported Python version: " ++ version ++
      "\nSupported versions: " ++ supportedVersionsStr ++
      "\nPlease specify one of the supported versions above.")

/-- `docker_images.MANYLINUX_IMAGES`: the static registry mapping image keys
to fully-qualified canonical references, in source order. -/
def MANYLINUX_IMAGES : List (String × String) :=
  [("manylinux2014_x86_64", "quay.io/pypa/manylinux2014_x86_64"),
   ("manylinux2014_i686", "quay.io/pypa/manylinux2014_i686"),
   ("manylinux2014_aarch64", "quay.io/pypa/manylinux2014_aarch64"),
   ("manylinux_2_28_x86_64", "quay.io/pypa/manylinux_2_28_x86_64"),
   ("manylinux_2_28_aarch64", "quay.io/pypa/manylinux_2_28_aarch64"),
   ("manylinux_2_34_x86_64", "quay.io/pypa/manylinux_2_34_x86_64"),
   ("manylinux_2_34_aarch64", "quay.io/pypa/manylinux_2_34_aarch64"),
   ("musllinux_1_1_x86_64", "quay.io/pypa/musllinux_1_1_x86_64"),
   ("musllinux_1_1_aarch64", "quay.io/pypa/musllinux_1_1_aarch64"),
   ("musllinux_1_2_x86_64", "quay.io/pypa/musllinux_1_2_x86_64"),
   ("musllinux_1_2_aarch64", "quay.io/pypa/musllinux_1_2_aarch64")]

/-- `docker_images.MANYLINUX_PYTHON_PATHS`: the static version-to-path table
for the interpreter inside the container, in source order. -/
def MANYLINUX_PYTHON_PATHS : List (String × String) :=
  [("3.9", "/opt/python/cp39-cp39/bin/python"),
   ("3.10", "/opt/python/cp310-cp310/bin/python"),
   ("3.11", "/opt/python/cp311-cp311/bin/python"),
   ("3.12", "/opt/python/cp312-cp312/bin/python"),
   ("3.13", "/opt/python/cp313-cp313/bin/python")]

/-- `docker_images.DEFAULT_IMAGES`: default image key per platform type. -/
def DEFAULT_IMAGES : List (String × String) :=
  [("manylinux", "manylinux_2_28_x86_64"),
   ("musllinux", "musllinux_1_2_x86_64")]

/-- The string `", ".join(sorted(MANYLINUX_PYTHON_PATHS.keys()))` used in
`get_container_python`'s final error message. -/
def pythonPathsSupportedStr : String :=
  String.intercalate ", " (pySorted (MANYLINUX_PYTHON_PATHS.map Prod.fst))

/-- `docker_images.get_container_python`: validates the version first, then
tries an exact lookup in `MANYLINUX_PYTHON_PATHS`, then a `major.minor`
lookup, then raises naming all supported versions. -/
def get_container_python (version : String) : Except String String :=
  match validate_python_version version with
  | .error e => .error e
  | .ok _ =>
    match MANYLINUX_PYTHON_PATHS.lookup version with
    | some p => .ok p
    | none =>
      match (if 2 ≤ (pySplit version '.').length then
               MANYLINUX_PYTHON_PATHS.lookup (shortVersion version)
             else none) with
      | some p => .ok p
      | none =>
        .error ("Unsupported Python version: " ++ version ++
          ". Supported versions: " ++ pythonPathsSupportedStr)

/-- `security_validation.ensure_deterministic_image`: a fully-qualified
reference (a `quay.io/` or `docker.io/` one) must be a member of the
registry's value set and is returned unchanged; anything else is treated as
a registry key and looked up. Unrecognized inputs raise naming the
available keys. Pure: no I/O. -/
def ensure_deterministic_image (image : String)
    (available_images : List (String × String)) : Except String String :=
  if pyStartsWith image "quay.io/" || pyStartsWith image "docker.io/" then
    if (available_images.map Prod.snd).contains image then .ok image
    else
      .error ("Unknown or unsupported image: " ++ image ++
        "\nSupported image keys: " ++
        String.intercalate ", " (pySorted (available_images.map Prod.fst)))
  else
    match available_images.lookup image with
    | some url => .ok url
    | none =>
      .error ("Unknown image key: " ++ image ++
        "\nSupported image keys:\n  " ++
        String.intercalate "\n  " (pySorted (available_images.map Prod.fst)))

/-- `docker_images.select_image`, with its two effects made explicit:
`pullFails img` is the outcome of the `ensure_image_available img` step
(`true` models a raised pull failure), and the second component of a
successful result lists the images passed to `ensure_image_available`, in
order. The Python truthiness test `if explicit_image:` treats both `None`
and the empty string as absent. -/
def select_image (pullFails : String → Bool) (explicit_image : Option String)
    (platform : String) (architecture : String) :
    Except String (String × List String) :=
  if explicit_image.getD "" ≠ "" then
    match ensure_deterministic_image (explicit_image.getD "") MANYLINUX_IMAGES with
    | .error e => .error e
    | .ok url => .ok (url, [])
  else
    let platform1 := if platform = "auto" then "manylinux" else platform
    let platform_key := (DEFAULT_IMAGES.lookup platform1).getD "manylinux_2_28_x86_64"
    let platform_key :=
      if architecture ≠ "x86_64" then pyReplace platform_key "x86_64" architecture
      else platform_key
    match MANYLINUX_IMAGES.lookup platform_key with
    | none =>
      .error ("Unknown platform: " ++ platform_key ++ ". Available: " ++
        String.intercalate ", " (MANYLINUX_IMAGES.map Prod.fst))
    | some image =>
      if pullFails image then
        .error ("Failed to pull Docker image " ++ image)
      else
        match ensure_deterministic_image image MANYLINUX_IMAGES with
        | .error e => .error e
        | .ok url => .ok (url, [image])

/-- `docker_config.DockerConfig` with its field defaults. `memory_limit` and
`cpu_limit` carry the already-rendered flag value (the Python `cpu_limit` is
a float passed through `str`). -/
structure DockerConfig where
  platform : String := "auto"
  image : Option String := none
  architecture : String := "x86_64"
  network : Bool := true
  memory_limit : Option String := none
  cpu_limit : Option String := none
  repair_wheel : Bool := true
  strip_binaries : Bool := true
  extra_mounts : List (String × String) := []
  extra_env : List (String × String) := []
deriving DecidableEq

/-- The base environment mapping built by `docker_config.build_env_vars`
before `env.update(config.extra_env)`. -/
def baseEnvVars : List (String × String) :=
  [("DEBIAN_FRONTEND", "noninteractive"),
   ("PIP_NO_CACHE_DIR", "1"),
   ("PIP_DISABLE_PIP_VERSION_CHECK", "1"),
   ("PYTHONDONTWRITEBYTECODE", "1")]

/-- Python's `dict.update` on insertion-ordered association lists: existing
keys keep their position with the new value, new keys are appended. -/
def dictUpdate (base extra : List (String × String)) : List (String × String) :=
  base.map (fun p => match extra.lookup p.1 with | some v => (p.1, v) | none => p) ++
    extra.filter (fun q => (base.lookup q.1).isNone)

/-- `docker_config.build_env_vars`. -/
def build_env_vars (config : DockerConfig) : List (String × String) :=
  dictUpdate baseEnvVars config.extra_env

/-- `docker_commands.build_docker_command`: the arguments of the `docker run`
invocation, with source mounted read-only at `/src`, output read-write at
`/output`, `--network=none` exactly when networking is disabled, and
internal `__HWB_` environment variables filtered out. Paths are taken as the
strings produced by `Path.absolute()`. -/
def build_docker_command (config : DockerConfig) (image : String)
    (source_dir output_dir : String) : List String :=
  ["docker", "run", "--rm"] ++
  (match config.memory_limit with | some m => ["--memory", m] | none => []) ++
  (match config.cpu_limit with | some c => ["--cpus", c] | none => []) ++
  (if !config.network then ["--network=none"] else []) ++
  ["-v", source_dir ++ ":/src:ro"] ++
  ["-v", output_dir ++ ":/output:rw"] ++
  (config.extra_mounts.map (fun m => ["-v", m.1 ++ ":" ++ m.2])).flatten ++
  (((build_env_vars config).filter (fun kv => !pyStartsWith kv.1 "__HWB_")).map
      (fun kv => ["-e", kv.1 ++ "=" ++ kv.2])).flatten ++
  ["-w", "/src"] ++ [image]

/-- The inline `unix_roots` set of `validate_cleanup_path`. -/
def unix_roots : List String := ["/", "/home", "/root", "/var", "/opt", "/usr"]

/-- The inline `win_dangerous` set of `validate_cleanup_path`. -/
def win_dangerous : List String := ["\\", "c:\\", "c:\\windows", "c:\\program files"]

/-- The dangerous-directory test performed by
`security_validation.validate_cleanup_path` on the resolved path: the
resolved path is lower-cased and compared against each dangerous root,
either exactly or with the root followed by the path separator as a
prefix. -/
def dangerousCleanupPath (resolved : String) : Bool :=
  let output_str := pyLower resolved
  unix_roots.any (fun root =>
    output_str == pyLower root || pyStartsWith output_str (pyLower root ++ "/")) ||
  win_dangerous.any (fun w =>
    output_str == pyLower w || pyStartsWith output_str (pyLower w ++ "\\"))

/-- `security_validation.validate_cleanup_path`, over the resolved path
(the result of `Path(output_dir).resolve()`) and the directory facts
(`Path.exists`, `Path.is_dir`): the dangerous-root checks come first, then
the existence check, then the directory-kind check. -/
def validate_cleanup_path (resolved : String) (pathExists isDir : Bool) :
    Except String Unit :=
  if dangerousCleanupPath resolved then
    .error ("Cannot clean critical system directory: " ++ resolved ++
      "\nFor safety, cleanup is restricted to project directories only.")
  else if !pathExists then
    .error ("Output directory does not exist: " ++ resolved)
  else if !isDir then
    .error ("Output path is not a directory: " ++ resolved)
  else .ok ()

/-- The `patterns` list of `safe_cleanup_wheels`. -/
def cleanupPatterns : List String := ["*.whl", "*.tar.gz", "*.zip"]

/-- `output_dir.glob(pattern)` membership for the fixed `*`-suffix patterns
used by `safe_cleanup_wheels`: an entry matches `"*" ++ suffix` exactly when
it ends with the suffix (`pathlib.Path.glob`'s `*` matches any run of
characters, including a leading dot, so hidden files are matched too). -/
def globMatches (pattern name : String) : Bool :=
  pyEndsWith name (String.mk (pattern.data.drop 1))

/-- One pattern pass of the deletion loop of `safe_cleanup_wheels`: unlink
each matching entry; `unlinkFails f` gives the `OSError` text when deleting
`f` fails. Returns the entries remaining, the number deleted, and the
accumulated error messages, in iteration order. -/
def cleanupPass (unlinkFails : String → Option String) (pattern : String) :
    List String → List String × Nat × List String
  | [] => ([], 0, [])
  | f :: fs =>
    if globMatches pattern f then
      match unlinkFails f with
      | none =>
        let r := cleanupPass unlinkFails pattern fs
        (r.1, r.2.1 + 1, r.2.2)
      | some e =>
        let r := cleanupPass unlinkFails pattern fs
        (f :: r.1, r.2.1, ("Failed to delete " ++ f ++ ": " ++ e) :: r.2.2)
    else
      let r := cleanupPass unlinkFails pattern fs
      (f :: r.1, r.2.1, r.2.2)

/-- The full two-level deletion loop of `safe_cleanup_wheels` (outer loop
over the patterns, inner loop over the matching entries). -/
def cleanupLoop (unlinkFails : String → Option String) :
    List String → List String → List String × Nat × List String
  | [], files => (files, 0, [])
  | p :: ps, files =>
    let r1 := cleanupPass unlinkFails p files
    let r2 := cleanupLoop unlinkFails ps r1.1
    (r2.1, r1.2.1 + r2.2.1, r1.2.2 ++ r2.2.2)

/-- `security_validation.safe_cleanup_wheels`, over the resolved directory
path, the directory facts, the directory's entries and a deletion-failure
oracle. Returns the function's outcome (the deletion count, or the raised
error) together with the final directory contents. The existence and
directory-kind checks come first, then `validate_cleanup_path`, then the
deletion loop; deletion failures are accumulated and raised together. -/
def safe_cleanup_wheels (resolved : String) (pathExists isDir : Bool)
    (files : List String) (unlinkFails : String → Option String) :
    Except String Nat × List String :=
  if !pathExists then
    (.error ("Output directory does not exist: " ++ resolved), files)
  else if !isDir then
    (.error ("Output path is not a directory: " ++ resolved), files)
  else
    match validate_cleanup_path resolved pathExists isDir with
    | .error e => (.error e, files)
    | .ok _ =>
      let r := cleanupLoop unlinkFails cleanupPatterns files
      if r.2.2.isEmpty then (.ok r.2.1, r.1)
      else
        (.error ("Failed to delete some files during cleanup:\n" ++
          String.intercalate "\n" r.2.2), r.1)

/-- The parsed wheel-identity record returned by `parse_wheel_filename`. -/
structure WheelInfo where
  name : String
  version : String
  python_tag : String
  abi_tag : String
  platform_tag : String
  full_filename : String
deriving DecidableEq, Repr

/-- `core/builder_metadata.parse_wheel_filename`. The Python code removes the
extension with `filename.replace(".whl", "")`, which (like `pyReplace`)
replaces every occurrence; it then splits on `-`, requires at least five
components, and takes the distribution from the first component (with `_`
replaced by `-`), the version from the second, and the three tags from the
last three components. -/
def parse_wheel_filename (filename : String) : Except String WheelInfo :=
  let parts := pySplit (pyReplace filename ".whl" "") '-'
  if parts.length < 5 then
    .error ("Invalid wheel filename format: " ++ filename ++
      "\nExpected: \x7bdistribution\x7d-\x7bversion\x7d-\x7bpython\x7d-\x7babi\x7d-\x7bplatform\x7d.whl")
  else
    .ok { name := pyReplace (parts.getD 0 "") "_" "-"
          version := parts.getD 1 ""
          python_tag := parts.getD (parts.length - 3) ""
          abi_tag := parts.getD (parts.length - 2) ""
          platform_tag := parts.getD (parts.length - 1) ""
          full_filename := filename }

/-- A directory as an association list of file names to contents. -/
abbrev Dir := List (String × String)

/-- `Path.unlink` on the model directory. -/
def eraseFile (fs : Dir) (n : String) : Dir := fs.filter (fun p => p.1 != n)

/-- Creating or overwriting a file in the model directory. -/
def putFile (fs : Dir) (n c : String) : Dir := eraseFile fs n ++ [(n, c)]

/-- `security_validation.AtomicFileWriter` as a state transformer on the
target's directory: `__enter__` creates the fresh temporary file `tmp` (in
the same directory as `target`); the with-body either writes `content` to
the temporary file (`some content`) or raises (`none`); `__exit__` then
either promotes the temporary file to `target` via atomic `replace` or
unlinks it and lets the exception propagate. Returns the final directory and
whether the body's exception propagates (`__exit__` returns `False`). -/
def atomicFileWriter (fs : Dir) (target tmp : String) (body : Option String) :
    Dir × Bool :=
  let afterEnter := putFile fs tmp ""
  match body with
  | none => (eraseFile afterEnter tmp, true)
  | some content =>
    let written := putFile afterEnter tmp content
    (putFile (eraseFile written tmp) target content, false)

/-- The dangerous-path predicate as the claim words it, relative to a
resolved user home directory `home`: the resolved path equals `/`, or equals
or is nested (path-separator-bounded) under `/home`, `/root`, `/usr`,
`/var`, `/opt`, or `home`. Stated from the specification for comparison with
`dangerousCleanupPath`, which is translated from the source. -/
def specDangerous (home resolved : String) : Prop :=
  resolved = "/" ∨
    ∃ root ∈ (["/home", "/root", "/usr", "/var", "/opt", home] : List String),
      resolved = root ∨ pyStartsWith resolved (root ++ "/") = true

/-- The home-free part of the claim's dangerous-path predicate, on the
lower-cased resolved path: equal to `/`, or equal to or path-separator-
bounded under one of the five fixed system roots. -/
def specDangerousRoots (resolved : String) : Prop :=
  pyLower resolved = "/" ∨
    ∃ root ∈ (["/home", "/root", "/usr", "/var", "/opt"] : List String),
      pyLower resolved = root ∨ pyStartsWith (pyLower resolved) (root ++ "/") = true

/-- A `List.lookup` hit on a string association list is a member. -/
theorem lookup_mem {k v : String} :
    ∀ {l : List (String × String)}, l.lookup k = some v → (k, v) ∈ l := by
  intro l h
  induction l with
  | nil => simp [List.lookup] at h
  | cons a l ih =>
    rw [List.lookup] at h
    cases hk : (k == a.1) with
    | true =>
      rw [hk] at h
      cases h
      have : k = a.1 := by exact_mod_cast beq_iff_eq.mp hk
      subst this
      exact List.mem_cons_self _ _
    | false =>
      rw [hk] at h
      exact List.mem_cons_of_mem _ (ih h)

/-- C1 (counterexample): resolving with no explicit image for platform
`"manylinux"`, architecture `"aarch64"` does invoke the pull-if-absent step:
the effect trace of `select_image` records the selected image being passed
to `ensure_image_available` before the name is returned, refuting "not
invoked during name resolution". -/
theorem select_image_pull_invoked_cex :
    select_image (fun _ => false) none "manylinux" "aarch64" =
      .ok ("quay.io/pypa/manylinux_2_28_aarch64",
           ["quay.io/pypa/manylinux_2_28_aarch64"]) ∧
    select_image (fun _ => false) none "manylinux" "aarch64" ≠
      .ok ("quay.io/pypa/manylinux_2_28_aarch64", []) := by
  constructor
  · decide
  · decide

/-- C1 (amended): with no explicit image, platform `"manylinux"` (or
`"auto"`) and architecture `"aarch64"`, `select_image` returns the canonical
reference containing `manylinux_2_28_aarch64`; the returned name is the same
under every pull oracle that succeeds on that image, so the pull outcome
does not influence which name is returned — but the pull-if-absent step is
invoked inside `select_image` before it returns, as the trace records. -/
theorem select_image_manylinux_aarch64_resolution :
    ∀ (pullFails : String → Bool) (platform : String),
      (platform = "manylinux" ∨ platform = "auto") →
      pullFails "quay.io/pypa/manylinux_2_28_aarch64" = false →
      select_image pullFails none platform "aarch64" =
        .ok ("quay.io/pypa/manylinux_2_28_aarch64",
             ["quay.io/pypa/manylinux_2_28_aarch64"]) := by
  intro pf platform hp hpull
  rcases hp with rfl | rfl
  · have h1 : select_image pf none "manylinux" "aarch64" =
        if pf "quay.io/pypa/manylinux_2_28_aarch64" then
          Except.error "Failed to pull Docker image quay.io/pypa/manylinux_2_28_aarch64"
        else
          Except.ok ("quay.io/pypa/manylinux_2_28_aarch64",
            ["quay.io/pypa/manylinux_2_28_aarch64"]) := rfl
    rw [h1, hpull]
    simp
  · have h1 : select_image pf none "auto" "aarch64" =
        if pf "quay.io/pypa/manylinux_2_28_aarch64" then
          Except.error "Failed to pull Docker image quay.io/pypa/manylinux_2_28_aarch64"
        else
          Except.ok ("quay.io/pypa/manylinux_2_28_aarch64",
            ["quay.io/pypa/manylinux_2_28_aarch64"]) := rfl
    rw [h1, hpull]
    simp

/-- C1 (witness): concrete instantiation of the amended resolution theorem
at platform `"auto"` with an always-succeeding pull oracle. -/
theorem select_image_manylinux_aarch64_resolution_witness :
    select_image (fun _ => false) none "auto" "aarch64" =
      .ok ("quay.io/pypa/manylinux_2_28_aarch64",
           ["quay.io/pypa/manylinux_2_28_aarch64"]) :=
  select_image_manylinux_aarch64_resolution (fun _ => false) "auto" (Or.inr rfl) rfl

/-- C2 (counterexample): a default `DockerConfig` has networking enabled
(`network = true`), and the constructed default container invocation does
not contain `--network=none`. -/
theorem build_docker_command_default_network_cex :
    ({} : DockerConfig).network = true ∧
    "--network=none" ∉ build_docker_command {} "img" "/s" "/o" := by
  constructor
  · rfl
  · decide

/-- C2 (amended): the constructed container invocation disables networking
only when networking is explicitly disabled: `--network=none` is included in
`build_docker_command` whenever `config.network = false`, and for a config
differing from the default only in the network flag it is included exactly
when the flag is `false` — the default configuration enables networking. -/
theorem build_docker_command_network_flag :
    (∀ (config : DockerConfig) (image source_dir output_dir : String),
        config.network = false →
        "--network=none" ∈ build_docker_command config image source_dir output_dir) ∧
    (∀ net : Bool,
        "--network=none" ∈
            build_docker_command { network := net } "img" "/s" "/o" ↔
          net = false) := by
  constructor
  · intro config image source_dir output_dir h
    simp [build_docker_command, h]
  · intro net
    cases net
    · simp only [Bool.false_eq_true, iff_true]
      decide
    · simp only [Bool.true_eq_false, iff_false]
      decide

/-- C2 (witness): concrete instantiation of the network-flag theorem at a
config with networking disabled. -/
theorem build_docker_command_network_flag_witness :
    "--network=none" ∈ build_docker_command { network := false } "img" "/s" "/o" :=
  build_docker_command_network_flag.1 { network := false } "img" "/s" "/o" rfl

/-- C3 (counterexample): for the dangerous directory `/home/user/dist` when
it does not exist, `safe_cleanup_wheels` aborts with the does-not-exist
error, not the dangerous-directory fatal error: its existence check runs
before the dangerous-path check, so that check is not unconditional.
Nothing is deleted. -/
theorem safe_cleanup_missing_dangerous_cex :
    dangerousCleanupPath "/home/user/dist" = true ∧
    safe_cleanup_wheels "/home/user/dist" false true ["a.whl"] (fun _ => none) =
      (.error "Output directory does not exist: /home/user/dist", ["a.whl"]) ∧
    ("Output directory does not exist: /home/user/dist" : String) ≠
      "Cannot clean critical system directory: /home/user/dist\nFor safety, cleanup is restricted to project directories only." := by
  refine ⟨by decide, by decide, by decide⟩

/-- C3 (amended): `safe_cleanup_wheels` deletes nothing on any aborting
path: a dangerous existing directory is refused with the dangerous-directory
fatal error before any deletion, while a directory that does not exist is
refused with the does-not-exist error before the dangerous-path check is
consulted — in both cases the directory contents are untouched. -/
theorem safe_cleanup_aborts_before_deletion :
    (∀ (resolved : String) (files : List String)
        (unlinkFails : String → Option String),
       dangerousCleanupPath resolved = true →
       safe_cleanup_wheels resolved true true files unlinkFails =
         (.error ("Cannot clean critical system directory: " ++ resolved ++
           "\nFor safety, cleanup is restricted to project directories only."),
          files)) ∧
    (∀ (resolved : String) (isDir : Bool) (files : List String)
        (unlinkFails : String → Option String),
       safe_cleanup_wheels resolved false isDir files unlinkFails =
         (.error ("Output directory does not exist: " ++ resolved), files)) := by
  constructor
  · intro resolved files u h
    simp [safe_cleanup_wheels, validate_cleanup_path, h]
  · intro resolved d files u
    simp [safe_cleanup_wheels]

/-- C3 (witness): concrete instantiation of the abort theorem at the
dangerous existing directory `/opt/data`. -/
theorem safe_cleanup_aborts_before_deletion_witness :
    safe_cleanup_wheels "/opt/data" true true ["x.whl"] (fun _ => none) =
      (.error ("Cannot clean critical system directory: /opt/data" ++
        "\nFor safety, cleanup is restricted to project directories only."),
       ["x.whl"]) :=
  safe_cleanup_aborts_before_deletion.1 "/opt/data" ["x.whl"] (fun _ => none)
    (by decide)

/-- Helper for the fixed-roots theorem: a path equal to or nested under a
lower-case dangerous root satisfies that root's disjunct of the
dangerous-path scan. -/
theorem dangerousRootCase (resolved r : String) (hr : r ∈ unix_roots)
    (hlow : pyLower r = r)
    (h : pyLower resolved = r ∨ pyStartsWith (pyLower resolved) (r ++ "/") = true) :
    ∃ root ∈ unix_roots,
      (pyLower resolved == pyLower root ||
        pyStartsWith (pyLower resolved) (pyLower root ++ "/")) = true := by
  refine ⟨r, hr, ?_⟩
  rw [Bool.or_eq_true, hlow]
  rcases h with h | h
  · exact Or.inl (by rw [h]; simp)
  · exact Or.inr h

/-- C4 (counterexample): the claim's predicate flags the resolved user home
directory, but `validate_cleanup_path` never consults the home directory:
with the home directory resolved to `/srv/builder`, the path `/srv/builder`
is dangerous per the claim yet accepted by the code's check. -/
theorem dangerous_path_home_dir_cex :
    specDangerous "/srv/builder" "/srv/builder" ∧
    dangerousCleanupPath "/srv/builder" = false ∧
    validate_cleanup_path "/srv/builder" true true = .ok () := by
  refine ⟨Or.inr ⟨"/srv/builder", by decide, Or.inl rfl⟩, by decide, by decide⟩

/-- C4 (amended): the dangerous-cleanup-path predicate rejects
(case-insensitively) every resolved path equal to `/`, or equal to or
path-separator-bounded under `/home`, `/root`, `/usr`, `/var`, `/opt`; the
resolved user home directory is rejected only insofar as it lies under
those roots. A fresh temporary subdirectory outside them is accepted. The
check is applied to the resolved path handed to `validate_cleanup_path`. -/
theorem dangerous_path_fixed_roots :
    (∀ resolved : String, specDangerousRoots resolved →
       dangerousCleanupPath resolved = true) ∧
    dangerousCleanupPath "/tmp/hwb-fresh-dist" = false := by
  refine ⟨?_, by decide⟩
  intro resolved h
  have hany : ∃ root ∈ unix_roots,
      (pyLower resolved == pyLower root ||
        pyStartsWith (pyLower resolved) (pyLower root ++ "/")) = true := by
    rcases h with h0 | ⟨root, hmem, hcase⟩
    · refine ⟨"/", by decide, ?_⟩
      rw [h0]
      decide
    · simp only [List.mem_cons, List.not_mem_nil, or_false] at hmem
      rcases hmem with rfl | rfl | rfl | rfl | rfl <;>
        exact dangerousRootCase resolved _ (by decide) (by decide) hcase
  rw [show dangerousCleanupPath resolved =
      (unix_roots.any (fun root =>
        pyLower resolved == pyLower root ||
          pyStartsWith (pyLower resolved) (pyLower root ++ "/")) ||
       win_dangerous.any (fun w =>
        pyLower resolved == pyLower w ||
          pyStartsWith (pyLower resolved) (pyLower w ++ "\\"))) from rfl]
  rw [Bool.or_eq_true]
  exact Or.inl (List.any_eq_true.mpr hany)

/-- C4 (witness): concrete instantiation of the fixed-roots theorem at the
nested system path `/var/cache`. -/
theorem dangerous_path_fixed_roots_witness :
    dangerousCleanupPath "/var/cache" = true :=
  dangerous_path_fixed_roots.1 "/var/cache"
    (Or.inr ⟨"/var", by decide, Or.inr (by decide)⟩)

/-- Dropping all but the last three elements of a list of length at least
three yields exactly the elements at the last three positions. -/
theorem drop_sub_three {α : Type} (l : List α) (d : α) (h : 3 ≤ l.length) :
    l.drop (l.length - 3) =
      [l.getD (l.length - 3) d, l.getD (l.length - 2) d, l.getD (l.length - 1) d] := by
  have h3 : l.length - 3 < l.length := by omega
  have h2 : l.length - 2 < l.length := by omega
  have h1 : l.length - 1 < l.length := by omega
  rw [List.drop_eq_getElem_cons h3, show l.length - 3 + 1 = l.length - 2 by omega,
    List.drop_eq_getElem_cons h2, show l.length - 2 + 1 = l.length - 1 by omega,
    List.drop_eq_getElem_cons h1, show l.length - 1 + 1 = l.length by omega,
    List.drop_length,
    List.getD_eq_getElem l d h3, List.getD_eq_getElem l d h2,
    List.getD_eq_getElem l d h1]

/-- Unfolding of `parse_wheel_filename` in the well-formed case. -/
theorem parse_wheel_filename_ok (filename : String)
    (h : ¬ (pySplit (pyReplace filename ".whl" "") '-').length < 5) :
    parse_wheel_filename filename = .ok
      { name := pyReplace ((pySplit (pyReplace filename ".whl" "") '-').getD 0 "") "_" "-"
        version := (pySplit (pyReplace filename ".whl" "") '-').getD 1 ""
        python_tag := (pySplit (pyReplace filename ".whl" "") '-').getD
          ((pySplit (pyReplace filename ".whl" "") '-').length - 3) ""
        abi_tag := (pySplit (pyReplace filename ".whl" "") '-').getD
          ((pySplit (pyReplace filename ".whl" "") '-').length - 2) ""
        platform_tag := (pySplit (pyReplace filename ".whl" "") '-').getD
          ((pySplit (pyReplace filename ".whl" "") '-').length - 1) ""
        full_filename := filename } := by
  simp only [parse_wheel_filename]
  rw [if_neg h]

/-- Unfolding of `parse_wheel_filename` in the too-few-components case. -/
theorem parse_wheel_filename_err (filename : String)
    (h : (pySplit (pyReplace filename ".whl" "") '-').length < 5) :
    parse_wheel_filename filename =
      .error ("Invalid wheel filename format: " ++ filename ++
        "\nExpected: \x7bdistribution\x7d-\x7bversion\x7d-\x7bpython\x7d-\x7babi\x7d-\x7bplatform\x7d.whl") := by
  simp only [parse_wheel_filename]
  rw [if_pos h]

/-- C5: for every wheel filename whose extension-stripped stem has at least
five dash-separated components, parsing succeeds with the distribution name
equal to the first component with `_` replaced by `-`, the version equal to
the second component verbatim, and the python/ABI/platform tags equal to the
last three components respectively (hence robust to an optional build-tag
component); for fewer than five components, parsing fails with the "Invalid
wheel filename format" error stating the expected pattern. -/
theorem parse_wheel_filename_components :
    ∀ filename : String,
      (5 ≤ (pySplit (pyReplace filename ".whl" "") '-').length →
        ∃ info, parse_wheel_filename filename = .ok info ∧
          info.name =
            pyReplace ((pySplit (pyReplace filename ".whl" "") '-').getD 0 "") "_" "-" ∧
          info.version = (pySplit (pyReplace filename ".whl" "") '-').getD 1 "" ∧
          (pySplit (pyReplace filename ".whl" "") '-').drop
              ((pySplit (pyReplace filename ".whl" "") '-').length - 3) =
            [info.python_tag, info.abi_tag, info.platform_tag]) ∧
      ((pySplit (pyReplace filename ".whl" "") '-').length < 5 →
        parse_wheel_filename filename =
          .error ("Invalid wheel filename format: " ++ filename ++
            "\nExpected: \x7bdistribution\x7d-\x7bversion\x7d-\x7bpython\x7d-\x7babi\x7d-\x7bplatform\x7d.whl")) := by
  intro filename
  constructor
  · intro h5
    refine ⟨_, parse_wheel_filename_ok filename (by omega), rfl, rfl, ?_⟩
    exact drop_sub_three _ "" (by omega)
  · intro h5
    exact parse_wheel_filename_err filename h5

/-- C5 (witness): concrete instantiations of the parsing theorem at a
six-component filename (with a build tag) and at a two-component one. -/
theorem parse_wheel_filename_components_witness :
    (∃ info,
      parse_wheel_filename "my_pkg-1.2.3-2-cp311-abi3-manylinux_2_28_x86_64.whl" =
        .ok info ∧
      info.name =
        pyReplace ((pySplit (pyReplace "my_pkg-1.2.3-2-cp311-abi3-manylinux_2_28_x86_64.whl" ".whl" "") '-').getD 0 "") "_" "-" ∧
      info.version =
        (pySplit (pyReplace "my_pkg-1.2.3-2-cp311-abi3-manylinux_2_28_x86_64.whl" ".whl" "") '-').getD 1 "" ∧
      (pySplit (pyReplace "my_pkg-1.2.3-2-cp311-abi3-manylinux_2_28_x86_64.whl" ".whl" "") '-').drop
          ((pySplit (pyReplace "my_pkg-1.2.3-2-cp311-abi3-manylinux_2_28_x86_64.whl" ".whl" "") '-').length - 3) =
        [info.python_tag, info.abi_tag, info.platform_tag]) ∧
    parse_wheel_filename "pkg-1.0.whl" =
      .error ("Invalid wheel filename format: pkg-1.0.whl" ++
        "\nExpected: \x7bdistribution\x7d-\x7bversion\x7d-\x7bpython\x7d-\x7babi\x7d-\x7bplatform\x7d.whl") :=
  ⟨(parse_wheel_filename_components
      "my_pkg-1.2.3-2-cp311-abi3-manylinux_2_28_x86_64.whl").1 (by decide),
   (parse_wheel_filename_components "pkg-1.0.whl").2 (by decide)⟩

/-- With no deletion failures, one pattern pass deletes exactly the matching
entries, counts them, and reports no errors. -/
theorem cleanupPass_noFail (pattern : String) (files : List String) :
    cleanupPass (fun _ => none) pattern files =
      (files.filter (fun f => !globMatches pattern f),
       files.countP (fun f => globMatches pattern f), []) := by
  induction files with
  | nil => simp [cleanupPass]
  | cons f fs ih =>
    by_cases h : globMatches pattern f = true
    · simp [cleanupPass, h, ih, List.countP_cons]
    · simp only [Bool.not_eq_true] at h
      simp [cleanupPass, h, ih, List.countP_cons]

/-- Splitting a disjunctive count: counting matches of `p or q` equals
counting `p` plus counting `q` among the non-`p` rest. -/
theorem countP_or_split (p q : String → Bool) (l : List String) :
    l.countP (fun f => p f || q f) =
      l.countP p + (l.filter (fun f => !p f)).countP q := by
  induction l with
  | nil => simp
  | cons a l ih =>
    by_cases hp : p a = true <;> by_cases hq : q a = true <;>
      simp [hp, hq, List.countP_cons, ih] <;> omega

/-- Composing two negative filters into one disjunctive filter. -/
theorem filter_not_or (p q : String → Bool) (l : List String) :
    (l.filter (fun f => !p f)).filter (fun f => !q f) =
      l.filter (fun f => !(p f || q f)) := by
  induction l with
  | nil => simp
  | cons a l ih =>
    by_cases hp : p a = true <;> by_cases hq : q a = true <;>
      simp [hp, hq, ih]

/-- With no deletion failures, the whole deletion loop keeps exactly the
entries matching no pattern, deletes and counts the rest, and reports no
errors. -/
theorem cleanupLoop_noFail (ps : List String) (files : List String) :
    cleanupLoop (fun _ => none) ps files =
      (files.filter (fun f => !ps.any (fun p => globMatches p f)),
       files.countP (fun f => ps.any (fun p => globMatches p f)), []) := by
  induction ps generalizing files with
  | nil => simp [cleanupLoop]
  | cons p ps ih =>
    simp only [cleanupLoop, cleanupPass_noFail, ih, List.any_cons]
    refine Prod.ext ?_ (Prod.ext ?_ ?_)
    · exact filter_not_or _ _ files
    · exact (countP_or_split _ _ files).symm
    · simp

/-- C6: on a validated directory with no deletion failures,
`safe_cleanup_wheels` deletes exactly the entries matching the artifact
patterns `*.whl`, `*.tar.gz`, `*.zip`, leaves every other entry untouched,
and returns the number of deletions; on the concrete directory
`a.whl, b.tar.gz, c.zip, README.md` it deletes 3 files and leaves
`README.md`; and individual deletion failures are accumulated and raised
together (both failures named) while the remaining matching file is still
deleted, rather than aborting after the first failure or skipping
silently. -/
theorem safe_cleanup_deletes_exactly_artifacts :
    (∀ (resolved : String) (files : List String),
       dangerousCleanupPath resolved = false →
       safe_cleanup_wheels resolved true true files (fun _ => none) =
         (.ok (files.countP (fun f => cleanupPatterns.any (fun p => globMatches p f))),
          files.filter (fun f => !cleanupPatterns.any (fun p => globMatches p f)))) ∧
    safe_cleanup_wheels "/tmp/proj/dist" true true
        ["a.whl", "b.tar.gz", "c.zip", "README.md"] (fun _ => none) =
      (.ok 3, ["README.md"]) ∧
    safe_cleanup_wheels "/tmp/proj/dist" true true ["a.whl", "b.tar.gz", "c.zip"]
        (fun f => if f == "a.whl" || f == "c.zip" then some "Permission denied" else none) =
      (.error ("Failed to delete some files during cleanup:\n" ++
        "Failed to delete a.whl: Permission denied\nFailed to delete c.zip: Permission denied"),
       ["a.whl", "c.zip"]) := by
  refine ⟨?_, by decide, by decide⟩
  intro resolved files h
  simp [safe_cleanup_wheels, validate_cleanup_path, h, cleanupLoop_noFail]

/-- C6 (witness): concrete instantiation of the exact-deletion theorem on a
safe directory containing one artifact and one other file. -/
theorem safe_cleanup_deletes_exactly_artifacts_witness :
    safe_cleanup_wheels "/tmp/work/dist" true true ["pkg-1.0-py3-none-any.whl", "notes.txt"]
        (fun _ => none) =
      (.ok ((["pkg-1.0-py3-none-any.whl", "notes.txt"] : List String).countP
          (fun f => cleanupPatterns.any (fun p => globMatches p f))),
       (["pkg-1.0-py3-none-any.whl", "notes.txt"] : List String).filter
          (fun f => !cleanupPatterns.any (fun p => globMatches p f))) :=
  safe_cleanup_deletes_exactly_artifacts.1 "/tmp/work/dist"
    ["pkg-1.0-py3-none-any.whl", "notes.txt"] (by decide)

/-- Every value of the image registry is a fully-qualified `quay.io/`
reference. -/
theorem registry_values_qualified :
    ∀ v ∈ MANYLINUX_IMAGES.map Prod.snd, pyStartsWith v "quay.io/" = true := by
  intro v hv
  fin_cases hv <;> decide

/-- C7: canonical image-name resolution over the static registry is total
and deterministic over its logical domain: the registry's keys are pairwise
distinct, every registry key resolves to exactly its one canonical
reference, and every successful resolution is a fixed point — resolving the
returned canonical reference again returns the identical string. The model
`ensure_deterministic_image` is a pure function (no I/O), so any two calls
with identical inputs are the same term. -/
theorem ensure_deterministic_image_registry :
    (MANYLINUX_IMAGES.map Prod.fst).Nodup ∧
    (∀ k url, (k, url) ∈ MANYLINUX_IMAGES →
       ensure_deterministic_image k MANYLINUX_IMAGES = .ok url) ∧
    (∀ image url,
       ensure_deterministic_image image MANYLINUX_IMAGES = .ok url →
       ensure_deterministic_image url MANYLINUX_IMAGES = .ok url) := by
  refine ⟨by decide, ?_, ?_⟩
  · intro k url hm
    fin_cases hm <;> decide
  · intro image url h
    simp only [ensure_deterministic_image] at h
    by_cases hs : (pyStartsWith image "quay.io/" || pyStartsWith image "docker.io/") = true
    · rw [if_pos hs] at h
      by_cases hc : (MANYLINUX_IMAGES.map Prod.snd).contains image = true
      · rw [if_pos hc] at h
        obtain rfl : image = url := by injection h
        simp only [ensure_deterministic_image]
        rw [if_pos hs, if_pos hc]
      · rw [if_neg hc] at h
        exact absurd h (by simp)
    · rw [if_neg hs] at h
      cases hL : MANYLINUX_IMAGES.lookup image with
      | none =>
        simp only [hL] at h
        exact absurd h (by simp)
      | some u =>
        simp only [hL] at h
        obtain rfl : u = url := by injection h
        have hmem : u ∈ MANYLINUX_IMAGES.map Prod.snd :=
          List.mem_map_of_mem Prod.snd (lookup_mem hL)
        have hq : pyStartsWith u "quay.io/" = true :=
          registry_values_qualified u hmem
        have hc : (MANYLINUX_IMAGES.map Prod.snd).contains u = true :=
          List.elem_eq_true_of_mem hmem
        have hs2 : (pyStartsWith u "quay.io/" || pyStartsWith u "docker.io/") = true := by
          rw [hq]
          rfl
        simp only [ensure_deterministic_image]
        rw [if_pos hs2, if_pos hc]

/-- C7 (witness): concrete instantiation of the registry theorem: the key
`manylinux_2_28_x86_64` resolves to its canonical reference, and resolving
that reference again returns it unchanged. -/
theorem ensure_deterministic_image_registry_witness :
    ensure_deterministic_image "manylinux_2_28_x86_64" MANYLINUX_IMAGES =
      .ok "quay.io/pypa/manylinux_2_28_x86_64" ∧
    ensure_deterministic_image "quay.io/pypa/manylinux_2_28_x86_64" MANYLINUX_IMAGES =
      .ok "quay.io/pypa/manylinux_2_28_x86_64" := by
  have h1 := ensure_deterministic_image_registry.2.1 "manylinux_2_28_x86_64"
    "quay.io/pypa/manylinux_2_28_x86_64" (by decide)
  exact ⟨h1, ensure_deterministic_image_registry.2.2 _ _ h1⟩

/-- Unlinking a name that is not present leaves the directory unchanged. -/
theorem eraseFile_fresh {fs : Dir} {n : String} (h : n ∉ fs.map Prod.fst) :
    eraseFile fs n = fs := by
  apply List.filter_eq_self.mpr
  intro a ha
  exact bne_iff_ne.mpr fun he => h (he ▸ List.mem_map_of_mem Prod.fst ha)

/-- Unlinking distributes over directory concatenation. -/
theorem eraseFile_append (l r : Dir) (n : String) :
    eraseFile (l ++ r) n = eraseFile l n ++ eraseFile r n :=
  List.filter_append _ _

/-- C8: over a directory in which neither the temporary name nor the target
exists yet, the atomic writer promotes the temporary file to the target on
success (the directory gains exactly the target with the written content),
while a body exception leaves the directory exactly as before — so the
target does not exist, no temporary file remains, and the original exception
propagates. On both paths the temporary file is gone. -/
theorem atomic_writer_no_temp_left :
    ∀ (fs : Dir) (target tmp : String),
      tmp ∉ fs.map Prod.fst → target ∉ fs.map Prod.fst → tmp ≠ target →
      (∀ content, atomicFileWriter fs target tmp (some content) =
         (fs ++ [(target, content)], false)) ∧
      atomicFileWriter fs target tmp none = (fs, true) ∧
      (∀ content,
        tmp ∉ (atomicFileWriter fs target tmp (some content)).1.map Prod.fst) ∧
      tmp ∉ (atomicFileWriter fs target tmp none).1.map Prod.fst ∧
      target ∉ (atomicFileWriter fs target tmp none).1.map Prod.fst := by
  intro fs target tmp htmp htarget hne
  have hself : eraseFile [(tmp, "")] tmp = ([] : Dir) := by
    simp [eraseFile]
  have herase : ∀ c : String, eraseFile [(tmp, c)] tmp = ([] : Dir) := by
    intro c
    simp [eraseFile]
  have hbase : eraseFile fs tmp = fs := eraseFile_fresh htmp
  have hcontents : ∀ c : String, eraseFile (fs ++ [(tmp, c)]) tmp = fs := by
    intro c
    rw [eraseFile_append, hbase, herase, List.append_nil]
  have h1 : putFile fs tmp "" = fs ++ [(tmp, "")] := by
    rw [show putFile fs tmp "" = eraseFile fs tmp ++ [(tmp, "")] from rfl, hbase]
  have hok : ∀ content, atomicFileWriter fs target tmp (some content) =
      (fs ++ [(target, content)], false) := by
    intro content
    show (putFile (eraseFile (putFile (putFile fs tmp "") tmp content) tmp)
        target content, false) = _
    rw [h1]
    rw [show putFile (fs ++ [(tmp, "")]) tmp content =
        eraseFile (fs ++ [(tmp, "")]) tmp ++ [(tmp, content)] from rfl]
    rw [hcontents ""]
    rw [hcontents content]
    rw [show putFile fs target content =
        eraseFile fs target ++ [(target, content)] from rfl,
      eraseFile_fresh htarget]
  have hfail : atomicFileWriter fs target tmp none = (fs, true) := by
    show (eraseFile (putFile fs tmp "") tmp, true) = _
    rw [h1, hcontents ""]
  refine ⟨hok, hfail, ?_, ?_, ?_⟩
  · intro content
    rw [hok content]
    simp only [List.map_append, List.mem_append]
    rintro (h | h)
    · exact htmp h
    · simp at h
      exact hne h
  · rw [hfail]
    exact htmp
  · rw [hfail]
    exact htarget

/-- C8 (witness): concrete instantiation of the atomic-writer theorem on a
one-file directory: the failing body leaves the directory unchanged and the
successful body adds exactly the target. -/
theorem atomic_writer_no_temp_left_witness :
    atomicFileWriter [("a.txt", "x")] "out.whl" ".tmp_1" (some "DATA") =
      ([("a.txt", "x"), ("out.whl", "DATA")], false) ∧
    atomicFileWriter [("a.txt", "x")] "out.whl" ".tmp_1" none =
      ([("a.txt", "x")], true) :=
  ⟨(atomic_writer_no_temp_left [("a.txt", "x")] "out.whl" ".tmp_1"
      (by decide) (by decide) (by decide)).1 "DATA",
   (atomic_writer_no_temp_left [("a.txt", "x")] "out.whl" ".tmp_1"
      (by decide) (by decide) (by decide)).2.1⟩

/-- C9: version handling rejects blank input with an error listing the
supported versions; rejects any version whose `major.minor` normalisation is
outside the supported set, with both the validator and the interpreter-path
resolver raising the same error naming all supported versions; and for
versions passing validation, `get_container_python` resolves the interpreter
path from the static table, via the exact-match branch when the version is a
table key and otherwise via the `major.minor`-match branch. -/
theorem python_version_validation_spec :
    ∀ version : String,
      (pyStrip version = "" →
        validate_python_version version =
          .error ("Python version cannot be empty\nSupported versions: " ++
            supportedVersionsStr)) ∧
      (pyStrip version ≠ "" →
        SUPPORTED_PYTHON_VERSIONS.contains (shortVersion version) = false →
        validate_python_version version =
          .error ("Unsupported Python version: " ++ version ++
            "\nSupported versions: " ++ supportedVersionsStr ++
            "\nPlease specify one of the supported versions above.") ∧
        get_container_python version =
          .error ("Unsupported Python version: " ++ version ++
            "\nSupported versions: " ++ supportedVersionsStr ++
            "\nPlease specify one of the supported versions above.")) ∧
      (∀ p, validate_python_version version = .ok () →
        MANYLINUX_PYTHON_PATHS.lookup version = some p →
        get_container_python version = .ok p) ∧
      (∀ p, validate_python_version version = .ok () →
        MANYLINUX_PYTHON_PATHS.lookup version = none →
        2 ≤ (pySplit version '.').length →
        MANYLINUX_PYTHON_PATHS.lookup (shortVersion version) = some p →
        get_container_python version = .ok p) := by
  intro version
  refine ⟨?_, ?_, ?_, ?_⟩
  · intro h
    simp only [validate_python_version]
    rw [if_pos h]
  · intro h1 h2
    have hv : validate_python_version version =
        .error ("Unsupported Python version: " ++ version ++
          "\nSupported versions: " ++ supportedVersionsStr ++
          "\nPlease specify one of the supported versions above.") := by
      simp only [validate_python_version]
      rw [if_neg h1, if_neg (by rw [h2]; simp)]
    refine ⟨hv, ?_⟩
    simp only [get_container_python, hv]
  · intro p hv hL
    simp only [get_container_python, hv, hL]
  · intro p hv hL hg hs
    simp only [get_container_python, hv, hL]
    rw [if_pos hg]
    simp only [hs]

/-- C9 (witness): concrete instantiations of the version-handling theorem at
the blank input, at the unsupported `2.7`, at the exact key `3.12`, and at
the patch-level version `3.11.5`. -/
theorem python_version_validation_spec_witness :
    validate_python_version "" =
      .error ("Python version cannot be empty\nSupported versions: " ++
        supportedVersionsStr) ∧
    (validate_python_version "2.7" =
      .error ("Unsupported Python version: " ++ "2.7" ++
        "\nSupported versions: " ++ supportedVersionsStr ++
        "\nPlease specify one of the supported versions above.") ∧
     get_container_python "2.7" =
      .error ("Unsupported Python version: " ++ "2.7" ++
        "\nSupported versions: " ++ supportedVersionsStr ++
        "\nPlease specify one of the supported versions above.")) ∧
    get_container_python "3.12" = .ok "/opt/python/cp312-cp312/bin/python" ∧
    get_container_python "3.11.5" = .ok "/opt/python/cp311-cp311/bin/python" :=
  ⟨(python_version_validation_spec "").1 (by decide),
   (python_version_validation_spec "2.7").2.1 (by decide) (by decide),
   (python_version_validation_spec "3.12").2.2.1 "/opt/python/cp312-cp312/bin/python"
     (by decide) (by decide),
   (python_version_validation_spec "3.11.5").2.2.2 "/opt/python/cp311-cp311/bin/python"
     (by decide) (by decide) (by decide) (by decide)⟩

/-- Helper for C10: when validation passed, the exact lookup missed, and the
`major.minor` lookup hits, `get_container_python` returns that hit. -/
theorem get_container_python_short_hit (v s p : String)
    (hv : validate_python_version v = .ok ())
    (hL : MANYLINUX_PYTHON_PATHS.lookup v = none)
    (hg : 2 ≤ (pySplit v '.').length)
    (hs : shortVersion v = s)
    (hsp : MANYLINUX_PYTHON_PATHS.lookup s = some p) :
    get_container_python v = .ok p := by
  simp only [get_container_python, hv, hL]
  rw [if_pos hg, hs]
  simp only [hsp]

/-- C10: every version accepted by `validate_python_version` is resolved by
`get_container_python` through the exact-match or `major.minor`-match branch
of the static table — the result is always a table entry, so the final
"Unsupported Python version" raise is unreachable — and the validator's
supported-version set equals the key set of the interpreter-path table. -/
theorem get_container_python_total_on_validated :
    (MANYLINUX_PYTHON_PATHS.map Prod.fst = SUPPORTED_PYTHON_VERSIONS) ∧
    ∀ version : String, validate_python_version version = .ok () →
      ∃ p, get_container_python version = .ok p ∧
        ((version, p) ∈ MANYLINUX_PYTHON_PATHS ∨
         (shortVersion version, p) ∈ MANYLINUX_PYTHON_PATHS) := by
  refine ⟨by decide, ?_⟩
  intro v hv
  have hc : SUPPORTED_PYTHON_VERSIONS.contains (shortVersion v) = true := by
    by_cases h1 : pyStrip v = ""
    · simp only [validate_python_version] at hv
      rw [if_pos h1] at hv
      exact absurd hv (by simp)
    · by_cases h2 : SUPPORTED_PYTHON_VERSIONS.contains (shortVersion v) = true
      · exact h2
      · simp only [validate_python_version] at hv
        rw [if_neg h1, if_neg h2] at hv
        exact absurd hv (by simp)
  have hmem : shortVersion v ∈ SUPPORTED_PYTHON_VERSIONS :=
    List.mem_of_elem_eq_true hc
  cases hL : MANYLINUX_PYTHON_PATHS.lookup v with
  | some p =>
    refine ⟨p, ?_, Or.inl (lookup_mem hL)⟩
    simp only [get_container_python, hv, hL]
  | none =>
    by_cases hg : 2 ≤ (pySplit v '.').length
    · simp only [SUPPORTED_PYTHON_VERSIONS, List.mem_cons, List.not_mem_nil,
        or_false] at hmem
      rcases hmem with hs | hs | hs | hs | hs
      · exact ⟨"/opt/python/cp39-cp39/bin/python",
          get_container_python_short_hit v "3.9" _ hv hL hg hs (by decide),
          Or.inr (by rw [hs]; decide)⟩
      · exact ⟨"/opt/python/cp310-cp310/bin/python",
          get_container_python_short_hit v "3.10" _ hv hL hg hs (by decide),
          Or.inr (by rw [hs]; decide)⟩
      · exact ⟨"/opt/python/cp311-cp311/bin/python",
          get_container_python_short_hit v "3.11" _ hv hL hg hs (by decide),
          Or.inr (by rw [hs]; decide)⟩
      · exact ⟨"/opt/python/cp312-cp312/bin/python",
          get_container_python_short_hit v "3.12" _ hv hL hg hs (by decide),
          Or.inr (by rw [hs]; decide)⟩
      · exact ⟨"/opt/python/cp313-cp313/bin/python",
          get_container_python_short_hit v "3.13" _ hv hL hg hs (by decide),
          Or.inr (by rw [hs]; decide)⟩
    · have hsv : shortVersion v = v := by
        simp only [shortVersion]
        rw [if_neg hg]
      rw [hsv] at hmem
      simp only [SUPPORTED_PYTHON_VERSIONS, List.mem_cons, List.not_mem_nil,
        or_false] at hmem
      rcases hmem with rfl | rfl | rfl | rfl | rfl <;>
        exact absurd hL (by decide)

/-- C10 (witness): concrete instantiation of the totality theorem at the
validated patch-level version `3.11.5`. -/
theorem get_container_python_total_on_validated_witness :
    ∃ p, get_container_python "3.11.5" = .ok p ∧
      (("3.11.5", p) ∈ MANYLINUX_PYTHON_PATHS ∨
       (shortVersion "3.11.5", p) ∈ MANYLINUX_PYTHON_PATHS) :=
  get_container_python_total_on_validated.2 "3.11.5" (by decide)

end HWB
